import Mathlib

/-!
Shallow embedding of `src/validated_data.py`.

The source defines a metaclass `ValidatedMeta` whose `__new__` checks, at
class-definition time, that the class namespace declares `__schema__` (a
value whose type is a subclass of `Schema`, `And` or `Or`) and `__init__`,
optionally overrides the class name from `__name__`, and replaces the
initializer with `patched`, which asserts that it received exactly two
positional arguments (the receiver and one value), validates the value
through the schema, and then calls the original initializer on the
validated value.  The factory `validated_by` builds, under that metaclass,
a transparent proxy class (`GenericWrappedData`) whose initializer stores
the value it receives as the proxied (wrapped) value.

Values flowing through schemas are an abstract type `α`; exceptions that a
schema's `validate` can raise are an abstract type `ε`.  Functions that can
raise return `Except`.  Python object identity of the class objects created
by repeated factory calls is modelled by an allocation token (`Nat`) handed
to each class creation: the Python runtime allocates a fresh class object
on every execution of the `class` statement.
-/

variable {α ε : Type}

/-- Errors a class definition or instance construction can signal:
`assertionError` models a failing `assert` statement, `typeError` models
calling the original initializer with a number of arguments incompatible
with its declared positional arity, and `raised e` models an exception `e`
propagated out of `schema.validate` or out of a caller-supplied
initializer body. -/
inductive PyErr (ε : Type) where
  | assertionError : PyErr ε
  | typeError : PyErr ε
  | raised : ε → PyErr ε
  deriving DecidableEq, Repr

/-- A value bound to the key `__schema__` in a class namespace.  The first
three constructors are values whose Python type is a subclass of `Schema`,
`And`, `Or` respectively (line 10 of the source accepts exactly these);
each carries its `validate` method, which returns the accepted (possibly
coerced) value or raises.  `nonSchema` is any other Python value. -/
inductive SchemaVal (α ε : Type) where
  | schema : (α → Except ε α) → SchemaVal α ε
  | andComb : (α → Except ε α) → SchemaVal α ε
  | orComb : (α → Except ε α) → SchemaVal α ε
  | nonSchema : SchemaVal α ε

/-- The `validate` method of a schema-combinator value, or `none` when the
value's type is not a subclass of `Schema`, `And` or `Or` — this mirrors
`any([issubclass(type(schema), cls) for cls in [Schema, And, Or]])` on
line 10 of the source. -/
def SchemaVal.validateFn : SchemaVal α ε → Option (α → Except ε α)
  | .schema f => some f
  | .andComb f => some f
  | .orComb f => some f
  | .nonSchema => none

/-- A value bound to the key `__init__` in a class namespace: `arity` is
the number of positional parameters the function declares (including the
receiver `self`); `run` is the effect of the call `old_init(self, v)` when
`arity = 2`, returning the value the initializer stores into the proxy's
wrapped slot (or raising). -/
structure InitFn (α ε : Type) where
  arity : Nat
  run : α → Except (PyErr ε) α

/-- The class namespace `nmspc` handed to `ValidatedMeta.__new__`,
restricted to the three keys the metaclass inspects: `__schema__`,
`__name__` and `__init__`.  `none` models absence of the key. -/
structure Nmspc (α ε : Type) where
  schemaDecl : Option (SchemaVal α ε)
  nameDecl : Option String
  initDecl : Option (InitFn α ε)

/-- An instance of a class created under `ValidatedMeta`: a proxy object
holding the wrapped value (the proxy's internal slot, `__wrapped__`). -/
structure Inst (α : Type) where
  wrapped : α
  deriving DecidableEq, Repr

/-- A class object created by `ValidatedMeta.__new__`: its identity token,
its (possibly overridden) `__name__`, its class-level `__schema__`
attribute, and its constructor, which runs the patched initializer on the
positional arguments supplied by the caller (the receiver excluded). -/
structure Cls (α ε : Type) where
  id : Nat
  name : String
  schemaAttr : SchemaVal α ε
  construct : List α → Except (PyErr ε) (Inst α)

/-- Lines 19–25 of the source: the patched initializer.  `callArgs` are
the positional arguments the caller passed to the constructor, so the
tuple `args` of the Python function has `1 + callArgs.length` entries (the
receiver plus `callArgs`); `assert len(args) == 2` therefore demands
exactly one caller argument.  On success the argument is replaced by
`schema.validate` of it and the original initializer is called on the
validated value; calling an initializer whose declared arity is not 2 with
two positional arguments raises `TypeError`. -/
def patched (validate : α → Except ε α) (oldInit : InitFn α ε)
    (callArgs : List α) : Except (PyErr ε) (Inst α) :=
  match callArgs with
  | [raw] =>
    match validate raw with
    | .error e => .error (PyErr.raised e)
    | .ok validated =>
      if oldInit.arity = 2 then
        match oldInit.run validated with
        | .error e => .error e
        | .ok w => .ok ⟨w⟩
      else .error PyErr.typeError
  | _ => .error PyErr.assertionError

/-- Lines 7–29 of the source: `ValidatedMeta.__new__`.  Asserts that
`__schema__` is present and is a schema-combinator value, overrides the
class name from `__name__` when present, asserts that `__init__` is
present, and creates the class with the patched initializer.  `freshId` is
the identity token of the newly allocated class object. -/
def ValidatedMeta.new (freshId : Nat) (name : String) (nmspc : Nmspc α ε) :
    Except (PyErr ε) (Cls α ε) :=
  match nmspc.schemaDecl with
  | none => .error PyErr.assertionError
  | some schemaVal =>
    match schemaVal.validateFn with
    | none => .error PyErr.assertionError
    | some validate =>
      let name := match nmspc.nameDecl with
        | some n => n
        | none => name
      match nmspc.initDecl with
      | none => .error PyErr.assertionError
      | some oldInit =>
        .ok { id := freshId, name := name, schemaAttr := schemaVal,
              construct := patched validate oldInit }

/-- Lines 31–32 of the source: `ValidatedMeta.__str__`, displaying the
class object itself. -/
def ValidatedMeta.str (cls : Cls α ε) : String :=
  "<schema-validated data: " ++ cls.name ++ ">"

/-- Lines 62–63 of the source: `GenericWrappedData.__init__`, which takes
the receiver and exactly one value (`arity = 2`) and hands the value to
the proxy base constructor.  The base constructor's behavior is modelled
from the spec: the transparent-proxy mechanism provides "an override of
the constructor that stores into that slot", so the value becomes the
wrapped value unchanged. -/
def genericInit : InitFn α ε := { arity := 2, run := fun v => .ok v }

/-- Lines 47–63 of the source: the class body of `GenericWrappedData` as a
namespace — it declares `__name__ = name`, `__schema__ = schema`, and the
initializer above. -/
def genericBody (schema : SchemaVal α ε) (name : String) : Nmspc α ε :=
  { schemaDecl := some schema, nameDecl := some name,
    initDecl := some genericInit }

/-- Lines 35–65 of the source: the factory `validated_by`.  Executing the
`class GenericWrappedData ... metaclass=ValidatedMeta` statement invokes
`ValidatedMeta.__new__` on the class body; `freshId` is the identity token
the runtime allocates for this execution of the class statement. -/
def validated_by (freshId : Nat) (schema : SchemaVal α ε) (name : String) :
    Except (PyErr ε) (Cls α ε) :=
  ValidatedMeta.new freshId "GenericWrappedData" (genericBody schema name)

/-- Calling the factory and then the returned class on positional
arguments `args`: `validated_by(schema, name)(*args)`. -/
def validated_by_call (freshId : Nat) (schema : SchemaVal α ε)
    (name : String) (args : List α) : Except (PyErr ε) (Inst α) :=
  match validated_by freshId schema name with
  | .error e => .error e
  | .ok cls => cls.construct args

/-- Defining a class directly under the metaclass and then calling its
constructor on positional arguments `args`. -/
def new_call (freshId : Nat) (name : String) (nmspc : Nmspc α ε)
    (args : List α) : Except (PyErr ε) (Inst α) :=
  match ValidatedMeta.new freshId name nmspc with
  | .error e => .error e
  | .ok cls => cls.construct args

/-- Two consecutive calls of the factory: the runtime allocates the token
`st` to the class created by the first call and `st + 1` to the class
created by the second. -/
def validated_by_twice (st : Nat) (s1 : SchemaVal α ε) (n1 : String)
    (s2 : SchemaVal α ε) (n2 : String) :
    Except (PyErr ε) (Cls α ε × Cls α ε) :=
  match validated_by st s1 n1 with
  | .error e => .error e
  | .ok c1 =>
    match validated_by (st + 1) s2 n2 with
    | .error e => .error e
    | .ok c2 => .ok (c1, c2)

/-- Whether a definition or construction completed without raising. -/
def exceptIsOk : Except (PyErr ε) β → Bool
  | .ok _ => true
  | .error _ => false

/-- Modelled from the spec: the transparent-proxy base mechanism
(`wrapt.ObjectProxy`, an external collaborator, spec sections 1 and 6) is
not part of this repository; per the spec it forwards every operation to
the wrapped value.  Reading an attribute of the proxy reads it off the
wrapped value (`attr` is the meaning of the attribute lookup on the
underlying type). -/
def Inst.getattr {β : Type} (inst : Inst α) (attr : α → β) : β :=
  attr inst.wrapped

/-- Modelled from the spec: equality comparison on the proxy is forwarded
to the wrapped value. -/
def Inst.eqOp [BEq α] (inst : Inst α) (other : α) : Bool :=
  inst.wrapped == other

/-- Modelled from the spec: indexing (`__getitem__`) on the proxy is
forwarded to the wrapped value; `idx` is the meaning of indexing on the
underlying type. -/
def Inst.getitem {ι β : Type} (inst : Inst α) (idx : α → ι → β) (i : ι) : β :=
  idx inst.wrapped i

/-- Modelled from the spec: a binary arithmetic operation on the proxy is
forwarded to the wrapped value; `op` is the meaning of the operation on
the underlying type. -/
def Inst.binop {β : Type} (inst : Inst α) (op : α → α → β) (other : α) : β :=
  op inst.wrapped other

/-- A concrete schema validator over `Nat` used as the witness schema: it
accepts numbers below 10, coercing them to their successor, and rejects
the rest. -/
def fex : Nat → Except Nat Nat :=
  fun n => if n < 10 then .ok (n + 1) else .error n

/-- A concrete atomic schema value built from `fex`. -/
def okSchema : SchemaVal Nat Nat := SchemaVal.schema fex

/-- A concrete caller-supplied initializer declaring three positional
parameters (the receiver plus two values). -/
def badInit : InitFn Nat Nat := { arity := 3, run := fun v => .ok v }

/-- A class body that declares a valid schema and a three-parameter
initializer. -/
def badBody : Nmspc Nat Nat :=
  { schemaDecl := some okSchema, nameDecl := some "Bad",
    initDecl := some badInit }

/-- Unfolding lemma: for a namespace whose declared schema is a
schema-combinator value with validate method `f`, the factory succeeds and
produces the class with identity `i`, the caller-provided name, the schema
attribute, and the patched generic initializer as constructor. -/
theorem validated_by_eq (i : Nat) (s : SchemaVal α ε) (nm : String)
    (f : α → Except ε α) (hs : s.validateFn = some f) :
    validated_by i s nm =
      Except.ok { id := i, name := nm, schemaAttr := s,
                  construct := patched f genericInit } := by
  cases s <;>
    simp_all [SchemaVal.validateFn, validated_by, ValidatedMeta.new,
      genericBody]

/-- Characterization of successful construction through the generic
initializer: it succeeds exactly on a single caller argument whose
validation succeeds, and the instance wraps the validation result. -/
theorem patched_generic_ok (f : α → Except ε α) (args : List α)
    (inst : Inst α) :
    patched f genericInit args = Except.ok inst ↔
      ∃ v, args = [v] ∧ f v = Except.ok inst.wrapped := by
  constructor
  · intro hok
    match args with
    | [] => simp [patched] at hok
    | a :: b :: t => simp [patched] at hok
    | [v] =>
      refine ⟨v, rfl, ?_⟩
      cases hfv : f v with
      | error e => simp [patched, hfv] at hok
      | ok w =>
        simp [patched, genericInit, hfv] at hok
        rw [← hok]
  · rintro ⟨v, rfl, hfv⟩
    simp [patched, genericInit, hfv]

/-- C1: for every schema `S` and value `v` such that `S.validate(v)`
succeeds returning `r`, constructing an instance of the factory-generated
type with `v` succeeds and the instance wraps `r`, the result of
validation, not the original raw value `v`. -/
theorem c1_instance_wraps_validate_result (i : Nat) (s : SchemaVal α ε)
    (nm : String) (f : α → Except ε α) (v r : α)
    (hs : s.validateFn = some f) (hv : f v = Except.ok r) :
    validated_by_call i s nm [v] = Except.ok ⟨r⟩ := by
  rw [validated_by_call, validated_by_eq i s nm f hs]
  simp [patched, genericInit, hv]

/-- C1 witness: the schema `fex` validates `3` to `4`, and the constructed
instance wraps `4`, not `3`. -/
theorem c1_witness :
    validated_by_call 0 okSchema "Foo" [3] = Except.ok ⟨4⟩ :=
  c1_instance_wraps_validate_result 0 okSchema "Foo" fex 3 4 rfl rfl

/-- C2: for every schema `S` and value `v` such that `S.validate(v)`
raises `e`, constructing an instance with `v` raises that same error
unmodified (not wrapped or translated — the propagated payload is the very
`e` the schema raised), and no instance is produced. -/
theorem c2_validation_error_propagates (i : Nat) (s : SchemaVal α ε)
    (nm : String) (f : α → Except ε α) (v : α) (e : ε)
    (hs : s.validateFn = some f) (hv : f v = Except.error e) :
    validated_by_call i s nm [v] = Except.error (PyErr.raised e) ∧
      ∀ inst : Inst α, validated_by_call i s nm [v] ≠ Except.ok inst := by
  have h : validated_by_call i s nm [v] = Except.error (PyErr.raised e) := by
    rw [validated_by_call, validated_by_eq i s nm f hs]
    simp [patched, hv]
  exact ⟨h, fun inst hcontra => by rw [h] at hcontra; exact Except.noConfusion hcontra⟩

/-- C2 witness: the schema `fex` rejects `10` raising `10`; construction
propagates that same error, and no instance equals the outcome. -/
theorem c2_witness :
    validated_by_call 0 okSchema "Foo" [10] =
        Except.error (PyErr.raised 10) ∧
      ∀ inst : Inst Nat,
        validated_by_call 0 okSchema "Foo" [10] ≠ Except.ok inst :=
  c2_validation_error_propagates 0 okSchema "Foo" fex 10 10 rfl rfl

/-- C3: invariant — every instance of a factory-generated type that exists
was produced by the fused validate-and-wrap construction step, so its
wrapped value is the successful result of `schema.validate` on the single
constructor argument; no instance holds a value that failed validation. -/
theorem c3_wrapped_value_passed_validation (i : Nat) (s : SchemaVal α ε)
    (nm : String) (f : α → Except ε α) (args : List α) (inst : Inst α)
    (hs : s.validateFn = some f)
    (hok : validated_by_call i s nm args = Except.ok inst) :
    ∃ v, args = [v] ∧ f v = Except.ok inst.wrapped := by
  rw [validated_by_call, validated_by_eq i s nm f hs] at hok
  exact (patched_generic_ok f args inst).1 hok

/-- C3 witness: the instance produced from argument list `[3]` wraps a
value on which `fex` succeeds. -/
theorem c3_witness :
    ∃ v, [(3 : Nat)] = [v] ∧
      fex v = Except.ok (Inst.mk (4 : Nat)).wrapped :=
  c3_wrapped_value_passed_validation 0 okSchema "Foo" fex [3] ⟨4⟩ rfl rfl

/-- C4: for every schema `S` and value `v` where `S.validate(v)` succeeds
with result `r`, the constructed instance behaves identically to `r` under
attribute access, equality, indexing and arithmetic: each forwarded
operation on the instance equals the operation performed on `r`
directly. -/
theorem c4_transparent_proxy_behavior (β ι : Type) [BEq α] (i : Nat)
    (s : SchemaVal α ε) (nm : String) (f : α → Except ε α) (v r : α)
    (inst : Inst α) (hs : s.validateFn = some f)
    (hv : f v = Except.ok r)
    (hok : validated_by_call i s nm [v] = Except.ok inst) :
    (∀ attr : α → β, inst.getattr attr = attr r) ∧
    (∀ x : α, inst.eqOp x = (r == x)) ∧
    (∀ (idx : α → ι → β) (j : ι), inst.getitem idx j = idx r j) ∧
    (∀ (op : α → α → β) (x : α), inst.binop op x = op r x) := by
  have hw : inst.wrapped = r := by
    rw [validated_by_call, validated_by_eq i s nm f hs] at hok
    obtain ⟨v', hv', hfv⟩ := (patched_generic_ok f [v] inst).1 hok
    have hvv : v = v' := by injection hv'
    rw [← hvv, hv] at hfv
    injection hfv with h
    exact h.symm
  refine ⟨?_, ?_, ?_, ?_⟩ <;>
    simp [Inst.getattr, Inst.eqOp, Inst.getitem, Inst.binop, hw]

/-- C4 witness: the instance wrapping `4` (built from raw value `3`)
agrees with `4` under a sample attribute read, equality test, indexing
operation and arithmetic operation. -/
theorem c4_witness :
    Inst.getattr (⟨4⟩ : Inst Nat) (fun n => n * 2) = 8 ∧
    Inst.eqOp (⟨4⟩ : Inst Nat) 4 = ((4 : Nat) == 4) ∧
    Inst.getitem (⟨4⟩ : Inst Nat) (fun n j => n + j) 1 = 5 ∧
    Inst.binop (⟨4⟩ : Inst Nat) (fun a b => a * b) 3 = 12 := by
  have h := c4_transparent_proxy_behavior Nat Nat 0 okSchema "Foo" fex 3 4
    ⟨4⟩ rfl rfl rfl
  exact ⟨h.1 (fun n => n * 2), h.2.1 4, h.2.2.1 (fun n j => n + j) 1,
    h.2.2.2 (fun a b => a * b) 3⟩

/-- C5: for every schema `S` and every name, the type returned by the
factory exposes the class-level schema attribute, and it is the very
schema value `S` that was passed in. -/
theorem c5_schema_attribute_identity (i : Nat) (s : SchemaVal α ε)
    (nm : String) (f : α → Except ε α) (hs : s.validateFn = some f) :
    Except.map Cls.schemaAttr (validated_by i s nm) = Except.ok s := by
  rw [validated_by_eq i s nm f hs]
  rfl

/-- C5 witness: the factory applied to the concrete schema `okSchema`
returns a type whose schema attribute is `okSchema` itself. -/
theorem c5_witness :
    Except.map Cls.schemaAttr (validated_by 0 okSchema "Foo") =
      Except.ok okSchema :=
  c5_schema_attribute_identity 0 okSchema "Foo" fex rfl

/-- C6 counterexample: `badBody` declares a valid schema and an
initializer with three positional parameters (not "the receiver plus
exactly one value"), yet defining the type succeeds — the wrong arity is
not detected at type-definition time, refuting the claim. -/
theorem c6_counterexample :
    exceptIsOk (ValidatedMeta.new 0 "Bad" badBody) = true := rfl

/-- C6 amended: an initializer of the wrong positional arity is not
detected when the type is defined — the metaclass only checks, at
definition time, that an initializer is present.  The wrong arity is
detected at construction time instead: the patched initializer first
validates the argument and then the call to the original initializer
fails. -/
theorem c6_wrong_arity_detected_at_call_time (i : Nat) (name : String)
    (s : SchemaVal α ε) (nd : Option String) (ini : InitFn α ε)
    (f : α → Except ε α) (v r : α)
    (hs : s.validateFn = some f) (ha : ini.arity ≠ 2)
    (hv : f v = Except.ok r) :
    exceptIsOk (ValidatedMeta.new i name
      { schemaDecl := some s, nameDecl := nd, initDecl := some ini }) =
      true ∧
    new_call i name
        { schemaDecl := some s, nameDecl := nd, initDecl := some ini }
        [v] =
      Except.error PyErr.typeError := by
  cases s <;>
    simp_all [SchemaVal.validateFn, ValidatedMeta.new, new_call, patched,
      exceptIsOk]

/-- C6 amended witness: the three-parameter initializer `badInit` defines
fine, and constructing with the raw value `3` (which validates) fails at
call time. -/
theorem c6_witness :
    exceptIsOk (ValidatedMeta.new 0 "Bad"
      { schemaDecl := some okSchema, nameDecl := some "Bad",
        initDecl := some badInit }) = true ∧
    new_call 0 "Bad"
        { schemaDecl := some okSchema, nameDecl := some "Bad",
          initDecl := some badInit }
        [3] =
      Except.error PyErr.typeError :=
  c6_wrong_arity_detected_at_call_time 0 "Bad" okSchema (some "Bad")
    badInit fex 3 4 rfl (by decide) rfl

/-- C7: defining a type under the metaclass fails immediately at
definition time — producing no class, hence before any instance exists —
when `__schema__` is missing, or when the declared schema is not a
schema-combinator value, or when `__init__` is missing; and a class body
declaring an `And` or `Or` composition succeeds. -/
theorem c7_definition_time_validation :
    (∀ (i : Nat) (name : String) (nd : Option String)
        (idecl : Option (InitFn α ε)),
      ValidatedMeta.new i name
          { schemaDecl := none, nameDecl := nd, initDecl := idecl } =
        Except.error PyErr.assertionError) ∧
    (∀ (i : Nat) (name : String) (nd : Option String)
        (idecl : Option (InitFn α ε)),
      ValidatedMeta.new i name
          { schemaDecl := some SchemaVal.nonSchema, nameDecl := nd,
            initDecl := idecl } =
        Except.error PyErr.assertionError) ∧
    (∀ (i : Nat) (name : String) (s : SchemaVal α ε)
        (f : α → Except ε α) (nd : Option String),
      s.validateFn = some f →
      ValidatedMeta.new i name
          { schemaDecl := some s, nameDecl := nd, initDecl := none } =
        Except.error PyErr.assertionError) ∧
    (∀ (i : Nat) (name : String) (f g : α → Except ε α)
        (nd : Option String) (ini : InitFn α ε),
      exceptIsOk (ValidatedMeta.new i name
          { schemaDecl := some (SchemaVal.andComb f), nameDecl := nd,
            initDecl := some ini }) = true ∧
      exceptIsOk (ValidatedMeta.new i name
          { schemaDecl := some (SchemaVal.orComb g), nameDecl := nd,
            initDecl := some ini }) = true) := by
  refine ⟨fun i name nd idecl => rfl, fun i name nd idecl => rfl,
    ?_, fun i name f g nd ini => ⟨rfl, rfl⟩⟩
  intro i name s f nd hs
  cases s <;> simp_all [SchemaVal.validateFn, ValidatedMeta.new]

/-- C7 witness: concrete class bodies — missing schema fails, a
non-schema value fails, a missing initializer fails, and an `And`/`Or`
composition with an initializer succeeds. -/
theorem c7_witness :
    ValidatedMeta.new 0 "A"
        ({ schemaDecl := none, nameDecl := none, initDecl := none } :
          Nmspc Nat Nat) =
      Except.error PyErr.assertionError ∧
    ValidatedMeta.new 0 "B"
        ({ schemaDecl := some SchemaVal.nonSchema, nameDecl := none,
           initDecl := some genericInit } : Nmspc Nat Nat) =
      Except.error PyErr.assertionError ∧
    ValidatedMeta.new 0 "C"
        ({ schemaDecl := some okSchema, nameDecl := none,
           initDecl := none } : Nmspc Nat Nat) =
      Except.error PyErr.assertionError ∧
    exceptIsOk (ValidatedMeta.new 0 "D"
        ({ schemaDecl := some (SchemaVal.andComb fex), nameDecl := none,
           initDecl := some genericInit } : Nmspc Nat Nat)) = true ∧
    exceptIsOk (ValidatedMeta.new 0 "D"
        ({ schemaDecl := some (SchemaVal.orComb fex), nameDecl := none,
           initDecl := some genericInit } : Nmspc Nat Nat)) = true := by
  have h := @c7_definition_time_validation Nat Nat
  exact ⟨h.1 0 "A" none none, h.2.1 0 "B" none (some genericInit),
    h.2.2.1 0 "C" okSchema fex none rfl,
    (h.2.2.2 0 "D" fex fex none genericInit).1,
    (h.2.2.2 0 "D" fex fex none genericInit).2⟩

/-- C8: for every schema and provided name, displaying the generated type
itself yields the label "<schema-validated data: name>", which contains
the provided name. -/
theorem c8_type_display_label (i : Nat) (s : SchemaVal α ε) (nm : String)
    (f : α → Except ε α) (hs : s.validateFn = some f) :
    Except.map ValidatedMeta.str (validated_by i s nm) =
      Except.ok ("<schema-validated data: " ++ nm ++ ">") ∧
    ∃ pre post,
      Except.map ValidatedMeta.str (validated_by i s nm) =
        Except.ok (pre ++ nm ++ post) := by
  rw [validated_by_eq i s nm f hs]
  exact ⟨rfl, "<schema-validated data: ", ">", rfl⟩

/-- C8 witness: with name "Foo" the displayed label is
"<schema-validated data: Foo>", which contains "Foo". -/
theorem c8_witness :
    Except.map ValidatedMeta.str (validated_by 0 okSchema "Foo") =
      Except.ok ("<schema-validated data: " ++ "Foo" ++ ">") ∧
    ∃ pre post,
      Except.map ValidatedMeta.str (validated_by 0 okSchema "Foo") =
        Except.ok (pre ++ "Foo" ++ post) :=
  c8_type_display_label 0 okSchema "Foo" fex rfl

/-- C9: two consecutive factory calls, even with the identical schema
value used both times, produce class objects with distinct identities —
generated types are never cached or shared. -/
theorem c9_repeated_calls_distinct_types (st : Nat) (s : SchemaVal α ε)
    (n1 n2 : String) (f : α → Except ε α) (hs : s.validateFn = some f) :
    Except.map (fun p => p.1.id == p.2.id)
        (validated_by_twice st s n1 s n2) =
      Except.ok false := by
  unfold validated_by_twice
  rw [validated_by_eq st s n1 f hs, validated_by_eq (st + 1) s n2 f hs]
  simp [Except.map, beq_eq_false_iff_ne]

/-- C9 witness: two consecutive calls with the identical schema `okSchema`
yield classes whose identities differ. -/
theorem c9_witness :
    Except.map (fun p => p.1.id == p.2.id)
        (validated_by_twice 0 okSchema "A" okSchema "B") =
      Except.ok false :=
  c9_repeated_calls_distinct_types 0 okSchema "A" "B" fex rfl

/-- C10: for every type successfully defined under the metaclass (the
factory-generated ones included), calling the constructor with a total
positional argument count other than two — the receiver plus the caller's
arguments — raises `AssertionError`; the statement holds for every class
body, in particular for every schema, so the assertion fires before the
schema's validate is ever invoked. -/
theorem c10_argument_count_assertion (i : Nat) (name : String)
    (nmspc : Nmspc α ε) (args : List α)
    (hok : exceptIsOk (ValidatedMeta.new i name nmspc) = true)
    (hlen : 1 + args.length ≠ 2) :
    new_call i name nmspc args = Except.error PyErr.assertionError := by
  obtain ⟨sd, nd, idecl⟩ := nmspc
  cases sd with
  | none => simp [ValidatedMeta.new, exceptIsOk] at hok
  | some sval =>
    cases hfn : sval.validateFn with
    | none => simp [ValidatedMeta.new, hfn, exceptIsOk] at hok
    | some f =>
      cases idecl with
      | none => simp [ValidatedMeta.new, hfn, exceptIsOk] at hok
      | some ini =>
        match args with
        | [] => simp [new_call, ValidatedMeta.new, hfn, patched]
        | [a] => simp at hlen
        | a :: b :: t => simp [new_call, ValidatedMeta.new, hfn, patched]

/-- C10 witness: the factory-generated class called with two positional
values (three arguments counting the receiver) raises `AssertionError`,
although both values would validate. -/
theorem c10_witness :
    new_call 0 "Foo" (genericBody okSchema "Foo") [3, 4] =
      Except.error PyErr.assertionError :=
  c10_argument_count_assertion 0 "Foo" (genericBody okSchema "Foo")
    [3, 4] rfl (by decide)
